import Mathlib

/-!
Shallow embedding of the salobj client library (lsst-ts/salobj) used to check
its natural-language specification against the code.

The embedding covers:

* the component (CSC) state machine of `src/python/salobj/base_csc.py`
  (`State`, `BaseCsc._do_change_state`, the `do_<name>` transition commands,
  `BaseCsc.fault`);
* command acknowledgments of `src/python/lsst/ts/salobj/sal_info.py`
  (`SalInfo.makeAckCmd`, `SalInfo._ackcmd_callback`, `SalInfo.close`,
  the historical replay of `SalInfo.start`);
* `index_generator` and `name_to_name_index` of
  `src/python/lsst/ts/salobj/base.py`.

Pure functions become Lean functions; the stateful methods become explicit
state-passing functions on structures mirroring the Python objects' fields.
Where the method invokes overridable hooks (`begin_<name>`, `end_<name>`)
the hook behavior is a boolean parameter (does the hook raise or not) and the
execution is recorded as an explicit event trace, so that ordering claims can
be read off the trace.
-/

set_option autoImplicit false

namespace Salobj

/-! ## The component state machine (base_csc.py) -/

/-- The `State` enumeration of `base_csc.py`. -/
inductive State where
  | offline
  | standby
  | disabled
  | enabled
  | fault
deriving DecidableEq, Fintype, Repr

/-- The SAL numeric value of each `State` member, from `base_csc.py`. -/
def State.salValue : State → Nat
  | .offline => 4
  | .standby => 5
  | .disabled => 1
  | .enabled => 2
  | .fault => 3

/-- The standard CSC transition commands handled by `do_<name>` methods of
`BaseCsc`. -/
inductive CscCmd where
  | start
  | enable
  | disable
  | standby
  | enterControl
  | exitControl
deriving DecidableEq, Fintype, Repr

/-- How a transition command terminates:
`complete` models a normal return (the command is acknowledged complete);
`expectedError` models `raise ExpectedError` (command not allowed in the
current state); `hookError` models an exception raised by a `begin_<name>`
or `end_<name>` hook propagating out of `_do_change_state`. -/
inductive CmdOutcome where
  | complete
  | expectedError
  | hookError
deriving DecidableEq, Fintype, Repr

/-- One observable step of `BaseCsc._do_change_state`: a hook invocation,
an assignment to `self.state`, or `report_summary_state` publishing the
summary-state event. -/
inductive CscEvent where
  | beginHook (cmd : CscCmd)
  | setState (s : State)
  | endHook (cmd : CscCmd)
  | reportSummaryState (s : State)
deriving DecidableEq, Repr

/-- Result of executing one transition command on a `BaseCsc`:
the outcome, the final value of `self.state`, and the trace of observable
steps in execution order. -/
structure CscResult where
  outcome : CmdOutcome
  state : State
  trace : List CscEvent
deriving DecidableEq, Repr

/-- `BaseCsc._do_change_state(id_data, cmd_name, allowed_curr_states,
new_state)`.  `id_data` carries no state-machine information and is omitted.
`beginOk` / `endOk` say whether the `begin_<name>` / `end_<name>` hook
returns normally (`true`) or raises (`false`); both hooks are no-ops in the
base class but are override points for subclasses. -/
def doChangeState (cmd : CscCmd) (allowed_curr_states : List State)
    (new_state : State) (beginOk endOk : Bool) (s : State) : CscResult :=
  if s ∈ allowed_curr_states then
    if beginOk then
      if endOk then
        { outcome := .complete
          state := new_state
          trace := [.beginHook cmd, .setState new_state, .endHook cmd,
                    .reportSummaryState new_state] }
      else
        -- `end_<name>` raised: `self.state = curr_state` and the exception
        -- propagates; `report_summary_state` is never reached.
        { outcome := .hookError
          state := s
          trace := [.beginHook cmd, .setState new_state, .endHook cmd,
                    .setState s] }
    else
      { outcome := .hookError, state := s, trace := [.beginHook cmd] }
  else
    { outcome := .expectedError, state := s, trace := [] }

/-- `BaseCsc.do_disable`. -/
def do_disable (beginOk endOk : Bool) (s : State) : CscResult :=
  doChangeState .disable [.enabled] .disabled beginOk endOk s

/-- `BaseCsc.do_enable`. -/
def do_enable (beginOk endOk : Bool) (s : State) : CscResult :=
  doChangeState .enable [.disabled] .enabled beginOk endOk s

/-- `BaseCsc.do_enterControl`. -/
def do_enterControl (beginOk endOk : Bool) (s : State) : CscResult :=
  doChangeState .enterControl [.offline, .fault] .standby beginOk endOk s

/-- `BaseCsc.do_exitControl` (without the subsequent event-loop shutdown). -/
def do_exitControl (beginOk endOk : Bool) (s : State) : CscResult :=
  doChangeState .exitControl [.standby] .offline beginOk endOk s

/-- `BaseCsc.do_standby`.  Note: the source passes `[State.DISABLED]` as the
allowed current states. -/
def do_standby (beginOk endOk : Bool) (s : State) : CscResult :=
  doChangeState .standby [.disabled] .standby beginOk endOk s

/-- `BaseCsc.do_start`. -/
def do_start (beginOk endOk : Bool) (s : State) : CscResult :=
  doChangeState .start [.standby] .disabled beginOk endOk s

/-- Dispatch a standard transition command to its `do_<name>` method. -/
def runCscCmd (cmd : CscCmd) (beginOk endOk : Bool) (s : State) : CscResult :=
  match cmd with
  | .start => do_start beginOk endOk s
  | .enable => do_enable beginOk endOk s
  | .disable => do_disable beginOk endOk s
  | .standby => do_standby beginOk endOk s
  | .enterControl => do_enterControl beginOk endOk s
  | .exitControl => do_exitControl beginOk endOk s

/-- `BaseCsc.fault`: set `self.state = State.FAULT` and call
`report_summary_state`; the method performs no check of the current state. -/
def faultCsc (_s : State) : CscResult :=
  { outcome := .complete
    state := .fault
    trace := [.setState .fault, .reportSummaryState .fault] }

/-- The allowed-source-state table for the standard transition commands as
written in the spec (the table of section 4.5); kept separate from the
`do_<name>` methods above so the two can be compared. -/
def specAllowedSources : CscCmd → List State
  | .start => [.standby]
  | .enable => [.disabled]
  | .disable => [.enabled]
  | .standby => [.disabled, .fault]
  | .enterControl => [.offline, .fault]
  | .exitControl => [.standby]

/-- The target state of each transition command, from the `do_<name>`
methods (identical to the spec's table). -/
def cmdNewState : CscCmd → State
  | .start => .disabled
  | .enable => .enabled
  | .disable => .disabled
  | .standby => .standby
  | .enterControl => .standby
  | .exitControl => .offline

/-- The `allowed_curr_states` argument each `do_<name>` method of
`base_csc.py` passes to `_do_change_state`. -/
def codeAllowedSources : CscCmd → List State
  | .start => [.standby]
  | .enable => [.disabled]
  | .disable => [.enabled]
  | .standby => [.disabled]
  | .enterControl => [.offline, .fault]
  | .exitControl => [.standby]

/-! ## Command acknowledgments and SalInfo (sal_info.py) -/

/-- Modelled from the spec: the acknowledgment status codes (the
`SalRetCode.CMD_` constants live in `sal_enums.py`, which is not among the
sources).  Per the spec, codes form an ordered sequence Acknowledged →
InProgress (zero or more) → one terminal of Complete, Failed, Aborted,
Stalled, Timeout, NoAck. -/
inductive AckCode where
  | acknowledged
  | inProgress
  | complete
  | failed
  | aborted
  | stalled
  | timeout
  | noAck
deriving DecidableEq, Fintype, Repr

/-- Modelled from the spec: whether an acknowledgment status is terminal
(ends the command). -/
def AckCode.isFinal : AckCode → Bool
  | .complete => true
  | .failed => true
  | .aborted => true
  | .stalled => true
  | .timeout => true
  | .noAck => true
  | .acknowledged => false
  | .inProgress => false

/-- A sample of the `ackcmd` topic (`SalInfo.AckCmdType`): issuer identity,
command sequence number, status code, error code and free-text result.
The result string is embedded as its character list. -/
structure AckCmdData where
  identity : String
  private_seqNum : Nat
  ack : AckCode
  error : Int
  result : List Char
deriving DecidableEq, Repr

/-- `MAX_RESULT_LEN` of `sal_info.py`: max length for the result field of an
ack. -/
def MAX_RESULT_LEN : Nat := 256

/-- `SalInfo.makeAckCmd(private_seqNum, ack, error, result,
truncate_result)`.  Raising `ValueError` is modelled as `Except.error`;
`result[0:MAX_RESULT_LEN]` is `List.take MAX_RESULT_LEN`.  The constructed
sample's identity field is left at its default (empty). -/
def makeAckCmd (private_seqNum : Nat) (ack : AckCode) (error : Int)
    (result : List Char) (truncate_result : Bool) : Except Unit AckCmdData :=
  if result.length > MAX_RESULT_LEN then
    if truncate_result then
      .ok { identity := "", private_seqNum := private_seqNum, ack := ack,
            error := error, result := result.take MAX_RESULT_LEN }
    else
      .error ()
  else
    .ok { identity := "", private_seqNum := private_seqNum, ack := ack,
          error := error, result := result }

/-- Modelled from the spec: `lsst.ts.salobj.topics.CommandInfo` (the
`topics` module is not among the sources) tracks one in-flight command: its
sequence number, the most recent acknowledgment received, and — once a
terminal acknowledgment arrives or the SalInfo closes — the resolution
delivered to its waiters (status code and result text). -/
structure CommandInfo where
  private_seqNum : Nat
  lastAck : Option AckCmdData
  resolution : Option (AckCode × List Char)
deriving DecidableEq, Repr

/-- Modelled from the spec: `CommandInfo.add_ackcmd` records the
acknowledgment as the most recent one, resolves the command when the status
is terminal, and reports whether the command is done. -/
def CommandInfo.add_ackcmd (ci : CommandInfo) (data : AckCmdData) :
    CommandInfo × Bool :=
  ({ ci with
      lastAck := some data
      resolution :=
        if data.ack.isFinal then some (data.ack, data.result)
        else ci.resolution },
   data.ack.isFinal)

/-- Modelled from the spec: `CommandInfo.abort(result)` resolves the command
with a synthetic `Aborted` terminal acknowledgment carrying `result`, so
that no waiter hangs. -/
def CommandInfo.abort (ci : CommandInfo) (result : List Char) : CommandInfo :=
  { ci with resolution := some (.aborted, result) }

/-- The `SalInfo` fields read or written by `close` and `_ackcmd_callback`.
`running_cmds` embeds the dict `_running_cmds` as an association list keyed
by `private_seqNum`; `readers` / `writers` hold opaque ids of the
registered topics; `done_task` is `done_task.done()`. -/
structure SalState where
  identity : String
  isopen : Bool
  running_cmds : List (Nat × CommandInfo)
  readers : List Nat
  writers : List Nat
  in_domain : Bool
  guard_triggered : Bool
  read_loop_cancelled : Bool
  done_task : Bool
deriving DecidableEq, Repr

/-- `SalInfo._ackcmd_callback(data)`.  An empty `data.identity` string is
falsy in Python, so the identity filter only fires when the identity is
nonempty and differs from this SalInfo's domain identity (the DM-25474
compatibility gap). -/
def ackcmdCallback (st : SalState) (data : AckCmdData) : SalState :=
  if st.running_cmds.isEmpty then st
  else if data.identity ≠ "" ∧ data.identity ≠ st.identity then st
  else
    match st.running_cmds.lookup data.private_seqNum with
    | none => st
    | some cmd_info =>
      let r := cmd_info.add_ackcmd data
      if r.2 then
        { st with running_cmds :=
            st.running_cmds.filter (fun p => p.1 != data.private_seqNum) }
      else
        { st with running_cmds :=
            st.running_cmds.map (fun p =>
              if p.1 = data.private_seqNum then (p.1, r.1) else p) }

/-- `SalInfo.close`.  The first call (while `isopen`) triggers the guard
condition, cancels the read loop, closes and releases every reader and
writer, aborts every outstanding command with result "shutting down",
removes the SalInfo from its domain, and sets `done_task`; a call on an
already-closed SalInfo only awaits `done_task` and mutates nothing.  The
returned list holds the commands that were outstanding at the time of the
call, as resolved by `CommandInfo.abort`. -/
def closeSal (st : SalState) : SalState × List (Nat × CommandInfo) :=
  if !st.isopen then
    (st, [])
  else
    ({ st with
        isopen := false
        guard_triggered := true
        read_loop_cancelled := true
        readers := []
        writers := []
        running_cmds := []
        in_domain := false
        done_task := true },
     st.running_cmds.map (fun p => (p.1, p.2.abort "shutting down".data)))

/-- A concrete SalInfo state used to witness theorems: open, with one
outstanding command (sequence number 5), one reader and one writer. -/
def closeWitnessState : SalState :=
  { identity := "me", isopen := true,
    running_cmds := [(5, { private_seqNum := 5, lastAck := none,
                           resolution := none })],
    readers := [1], writers := [2], in_domain := true,
    guard_triggered := false, read_loop_cancelled := false,
    done_task := false }

/-- A concrete acknowledgment sample used to witness theorems: terminal
Complete status for sequence number 5, empty identity. -/
def witnessAck : AckCmdData :=
  { identity := "", private_seqNum := 5, ack := .complete, error := 0,
    result := [] }

/-! ## Historical replay (SalInfo.start) -/

/-- A decoded sample as delivered by `take_cond`: the sample-info validity
flag and an opaque payload. -/
structure Sample where
  valid : Bool
  payload : Nat
deriving DecidableEq, Repr

/-- The fields of a `ReadTopic` consulted by the historical-replay loop of
`SalInfo.start`, plus the backlog of historical samples its DDS reader
holds (oldest first). -/
structure Reader where
  volatile : Bool
  isopen : Bool
  max_history : Nat
  backlog : List Sample
deriving DecidableEq, Repr

/-- A DDS read condition is triggered exactly when its reader holds unread
samples. -/
def Reader.triggered (r : Reader) : Bool := !r.backlog.isEmpty

/-- Python list slice `l[-n:]` (the code below only uses it with `n > 0`,
where it keeps the last `n` elements, or all of them when fewer). -/
def pySliceLast {α : Type} (l : List α) (n : Nat) : List α :=
  if n = 0 then l else l.drop (l.length - n)

/-- The body of the historical-replay loop of `SalInfo.start` for one
reader: the list of samples delivered to `reader._queue_data`, in order.
`queueLen` stands for `DDS_READ_QUEUE_LEN`, the count `take_cond` is asked
for (its value lives in `domain.py`, outside the sources, so it is kept as
a parameter). -/
def historicalSamplesQueued (queueLen : Nat) (r : Reader) : List Sample :=
  if r.volatile || !r.isopen || !r.triggered then []
  else
    let data_list := r.backlog.take queueLen
    let sd_list := data_list.filter (fun sd => sd.valid)
    if r.max_history > 0 then
      let sd_list2 := pySliceLast sd_list r.max_history
      if !sd_list2.isEmpty then sd_list2 else []
    else []

/-- A concrete reader used to witness the replay theorem: open,
non-volatile, `max_history = 2`, four backlog samples of which one is
invalid. -/
def replayWitnessReader : Reader :=
  { volatile := false, isopen := true, max_history := 2,
    backlog := [{ valid := true, payload := 1 }, { valid := false, payload := 2 },
                { valid := true, payload := 3 }, { valid := true, payload := 4 }] }

/-! ## index_generator and name_to_name_index (base.py) -/

/-- `MAX_SAL_INDEX = (1 << 31) - 1` of `base.py`. -/
def MAX_SAL_INDEX : Nat := (1 <<< 31) - 1

/-- One iteration of the loop inside `index_generator`'s inner generator:
`index += 1; if index > imax: index = imin; yield index`. -/
def indexStep (imin imax index : Nat) : Nat :=
  if index + 1 > imax then imin else index + 1

/-- The state of `index_generator`'s inner generator after `k` yields,
starting from `index = i0 - 1`; for `k ≥ 1` this is the `k`-th yielded
value. -/
def indexGenNth (imin imax i0 : Nat) : Nat → Nat
  | 0 => i0 - 1
  | k + 1 => indexStep imin imax (indexGenNth imin imax i0 k)

/-- `index_generator(imin, imax, i0)` of `base.py`: after the argument
checks (each `raise ValueError` becomes `Except.error`), the generator is
embedded as the function taking `k ≥ 1` to the `k`-th yielded value. -/
def index_generator (imin imax i0 : Nat) : Except Unit (Nat → Nat) :=
  if imax ≤ imin then .error ()
  else if ¬(imin ≤ i0 ∧ i0 ≤ imax) then .error ()
  else .ok (fun k => indexGenNth imin imax i0 k)

/-- The sequence of draws from `index_generator()` at its default bounds
`imin = 1`, `imax = MAX_SAL_INDEX`, `i0 = imin` — the command
sequence-number source.  `salIndexDraw k` is the `k`-th value, `k ≥ 1`. -/
def salIndexDraw (k : Nat) : Nat := indexGenNth 1 MAX_SAL_INDEX 1 k

/-- First character class of `_NAME_REGEX`'s name group: `[a-zA-Z_-]`. -/
def isNameFirstChar (c : Char) : Bool := c.isAlpha || c == '_' || c == '-'

/-- Subsequent character class of the name group: `[a-zA-Z0-9_-]`. -/
def isNameChar (c : Char) : Bool := isNameFirstChar c || c.isDigit

/-- `int()` applied to the nonempty decimal digit string captured by the
regex's index group. -/
def digitsToNat (ds : List Char) : Nat :=
  ds.foldl (fun n c => n * 10 + (c.toNat - Char.toNat '0')) 0

/-- The match of `_NAME_REGEX = (?P<name>[a-zA-Z_-][a-zA-Z0-9_-]*)
(:(?P<index>\d+))?$` against a whole string, under Python `re.match`
semantics: the match is anchored at the start, and `$` (no MULTILINE)
matches at the end of the string or just before a trailing newline.
Because `:` is not a name character, no digit may follow the index group
under `$`, and no name character may follow a shortened name group under
either alternative, the regex engine's backtracking never helps, so the
greedy spans below are exactly its behaviour. -/
def parseNameIndex (cs : List Char) : Option (List Char × Nat) :=
  match cs with
  | [] => none
  | c :: rest =>
    if isNameFirstChar c then
      let body := rest.takeWhile isNameChar
      let rest2 := rest.dropWhile isNameChar
      let name := c :: body
      if rest2 = [] ∨ rest2 = ['\n'] then some (name, 0)
      else
        match rest2 with
        | ':' :: rest3 =>
          let ds := rest3.takeWhile Char.isDigit
          let rest4 := rest3.dropWhile Char.isDigit
          if ds ≠ [] ∧ (rest4 = [] ∨ rest4 = ['\n']) then
            some (name, digitsToNat ds)
          else none
        | _ => none
    else none

/-- `name_to_name_index(name)` of `base.py`: `None` (match failure, i.e.
`raise ValueError`) becomes `Option.none`. -/
def name_to_name_index (s : String) : Option (String × Nat) :=
  match parseNameIndex s.data with
  | none => none
  | some (name, index) => some (String.mk name, index)

/-- The `do_<name>` dispatch agrees with the `codeAllowedSources` /
`cmdNewState` tables. -/
theorem runCscCmd_eq_doChangeState (cmd : CscCmd) (beginOk endOk : Bool)
    (s : State) :
    runCscCmd cmd beginOk endOk s =
      doChangeState cmd (codeAllowedSources cmd) (cmdNewState cmd)
        beginOk endOk s := by
  cases cmd <;> rfl

/-- C1: the `standby` command in `base_csc.py` only accepts
`State.DISABLED` as the current state (`do_standby` passes
`[State.DISABLED]`), so invoked in `State.FAULT` it raises `ExpectedError`
and leaves the state at `FAULT` — contradicting the spec's table, the
`BaseCsc` class docstring (`standby: State.DISABLED or State.FAULT to
State.STANDBY`) and the repository tests, which drive
`standby` from `FAULT` back to `STANDBY`. -/
theorem standby_from_fault_raises :
    ∀ beginOk endOk : Bool,
      runCscCmd .standby beginOk endOk .fault =
        { outcome := .expectedError, state := .fault, trace := [] } := by
  decide

/-- C2 (counterexample): `BaseCsc.fault` performs no check of the current
state, so invoked in `State.OFFLINE` it completes normally, sets the state
to `FAULT` and publishes the summary-state event — refuting the claim that
the fault-entry operation is not legal from Offline. -/
theorem fault_from_offline_succeeds :
    (faultCsc .offline).outcome = .complete ∧
    (faultCsc .offline).state = .fault ∧
    CscEvent.reportSummaryState .fault ∈ (faultCsc .offline).trace := by
  decide

/-- C2 (amended): `BaseCsc.fault`, invoked in any state whatsoever
(Offline included), sets the component state to `FAULT` and publishes the
summary-state event. -/
theorem fault_sets_fault_from_any_state :
    ∀ s : State,
      faultCsc s =
        { outcome := .complete, state := .fault,
          trace := [.setState .fault, .reportSummaryState .fault] } := by
  decide

/-- C3: for every standard transition command and every current state not in
that command's allowed-source set (the spec's table), executing the command
raises `ExpectedError`, the state keeps its prior value, and no
summary-state event is published (the trace is empty), whatever the hooks
would have done. -/
theorem invalid_transition_rejected :
    ∀ (cmd : CscCmd) (beginOk endOk : Bool) (s : State),
      s ∉ specAllowedSources cmd →
      runCscCmd cmd beginOk endOk s =
        { outcome := .expectedError, state := s, trace := [] } := by
  decide

/-- C3 witness: `enable` issued while in `Standby` fails and the state
remains `Standby`, with no event published. -/
theorem invalid_transition_rejected_witness :
    State.standby ∉ specAllowedSources .enable ∧
    runCscCmd .enable true true .standby =
      { outcome := .expectedError, state := .standby, trace := [] } :=
  ⟨by decide, invalid_transition_rejected .enable true true .standby (by decide)⟩

/-- C4: every transition valid per the code's allowed-source set runs the
pre-hook, then the state mutation, then the post-hook, in that order.  If
the post-hook returns normally the command completes and the new state is
published as a summary-state event; if the post-hook raises, the state is
rolled back to the exact pre-transition value, the exception propagates as
the outcome, and no summary-state event appears in the trace. -/
theorem valid_transition_hook_protocol :
    ∀ (cmd : CscCmd) (s : State),
      s ∈ codeAllowedSources cmd →
      runCscCmd cmd true true s =
        { outcome := .complete, state := cmdNewState cmd,
          trace := [.beginHook cmd, .setState (cmdNewState cmd), .endHook cmd,
                    .reportSummaryState (cmdNewState cmd)] } ∧
      runCscCmd cmd true false s =
        { outcome := .hookError, state := s,
          trace := [.beginHook cmd, .setState (cmdNewState cmd),
                    .endHook cmd, .setState s] } := by
  decide

/-- C5: closing an open SalInfo empties the running-commands table, every
command outstanding at the time of the call is resolved with an
Aborted/"shutting down" result, the session is marked not open, and
`done_task` is set; a later close call on the resulting state performs no
further mutation and sees the same completed `done_task`. -/
theorem close_resolves_outstanding_commands :
    ∀ st : SalState, st.isopen = true →
      (closeSal st).1.running_cmds = [] ∧
      (closeSal st).1.isopen = false ∧
      (closeSal st).1.done_task = true ∧
      (closeSal st).2 =
        st.running_cmds.map (fun p => (p.1, p.2.abort "shutting down".data)) ∧
      (∀ p ∈ (closeSal st).2,
        p.2.resolution = some (.aborted, "shutting down".data)) ∧
      closeSal (closeSal st).1 = ((closeSal st).1, []) := by
  intro st h
  simp [closeSal, h, CommandInfo.abort, List.mem_map]
  intro a b q hq hmem h1 h2
  rw [← h2]

/-- C5 witness: a SalInfo with one outstanding command; closing it aborts
that command, clears the table, and a second close is inert. -/
theorem close_resolves_outstanding_commands_witness :
    (closeSal closeWitnessState).1.running_cmds = [] ∧
    (closeSal closeWitnessState).1.isopen = false ∧
    (closeSal closeWitnessState).1.done_task = true ∧
    (closeSal closeWitnessState).2 =
      closeWitnessState.running_cmds.map
        (fun p => (p.1, p.2.abort "shutting down".data)) ∧
    (∀ p ∈ (closeSal closeWitnessState).2,
      p.2.resolution = some (.aborted, "shutting down".data)) ∧
    closeSal (closeSal closeWitnessState).1 =
      ((closeSal closeWitnessState).1, []) :=
  close_resolves_outstanding_commands closeWitnessState rfl

/-- C6: an inbound acknowledgment sample is matched to a `CommandInfo` by
sequence number.  One with a nonempty identity differing from this
SalInfo's is discarded with no state change; one whose sequence number is
not outstanding is likewise discarded; a matched sample that passes the
identity filter and carries a terminal status removes its entry from the
outstanding-command table. -/
theorem ackcmd_callback_matching :
    ∀ (st : SalState) (data : AckCmdData),
      (data.identity ≠ "" → data.identity ≠ st.identity →
        ackcmdCallback st data = st) ∧
      (st.running_cmds.lookup data.private_seqNum = none →
        ackcmdCallback st data = st) ∧
      (∀ ci : CommandInfo,
        (data.identity = "" ∨ data.identity = st.identity) →
        st.running_cmds.lookup data.private_seqNum = some ci →
        data.ack.isFinal = true →
        (ackcmdCallback st data).running_cmds =
          st.running_cmds.filter (fun p => p.1 != data.private_seqNum)) := by
  intro st data
  refine ⟨?_, ?_, ?_⟩
  · intro h1 h2
    unfold ackcmdCallback
    split
    · rfl
    · rw [if_pos ⟨h1, h2⟩]
  · intro hl
    unfold ackcmdCallback
    split
    · rfl
    · split
      · rfl
      · rw [hl]
  · intro ci hid hl hfin
    have hne : st.running_cmds.isEmpty = false := by
      cases hcs : st.running_cmds with
      | nil => rw [hcs] at hl; simp [List.lookup] at hl
      | cons a l => rfl
    have hguard : ¬(data.identity ≠ "" ∧ data.identity ≠ st.identity) := by
      rcases hid with h | h <;> simp [h]
    unfold ackcmdCallback
    rw [hne, if_neg hguard, hl]
    simp [CommandInfo.add_ackcmd, hfin]

/-- C6 witness: one outstanding command with sequence number 5; a terminal
Complete acknowledgment with empty identity for sequence number 5 removes
it, while samples with a foreign identity or sequence number 6 leave the
state untouched. -/
theorem ackcmd_callback_matching_witness :
    (ackcmdCallback closeWitnessState
        { witnessAck with identity := "other" } = closeWitnessState) ∧
    (ackcmdCallback closeWitnessState
        { witnessAck with private_seqNum := 6 } = closeWitnessState) ∧
    ((ackcmdCallback closeWitnessState witnessAck).running_cmds =
      closeWitnessState.running_cmds.filter
        (fun p => p.1 != witnessAck.private_seqNum)) :=
  ⟨(ackcmd_callback_matching closeWitnessState
      { witnessAck with identity := "other" }).1 (by decide) (by decide),
   (ackcmd_callback_matching closeWitnessState
      { witnessAck with private_seqNum := 6 }).2.1 (by decide),
   (ackcmd_callback_matching closeWitnessState witnessAck).2.2
      { private_seqNum := 5, lastAck := none, resolution := none }
      (Or.inl rfl) (by decide) rfl⟩

/-- C7: `makeAckCmd` leaves a result of at most `MAX_RESULT_LEN` characters
unchanged regardless of `truncate_result`; for a longer result it raises
`ValueError` when `truncate_result` is false and returns exactly the first
`MAX_RESULT_LEN` characters when it is true. -/
theorem makeAckCmd_result_spec :
    ∀ (n : Nat) (a : AckCode) (e : Int) (result : List Char),
      (result.length ≤ MAX_RESULT_LEN →
        ∀ t : Bool, makeAckCmd n a e result t =
          .ok { identity := "", private_seqNum := n, ack := a, error := e,
                result := result }) ∧
      (MAX_RESULT_LEN < result.length →
        makeAckCmd n a e result false = .error () ∧
        makeAckCmd n a e result true =
          .ok { identity := "", private_seqNum := n, ack := a, error := e,
                result := result.take MAX_RESULT_LEN } ∧
        (result.take MAX_RESULT_LEN).length = MAX_RESULT_LEN) := by
  intro n a e result
  constructor
  · intro h t
    rw [makeAckCmd, if_neg (by omega)]
  · intro h
    refine ⟨?_, ?_, ?_⟩
    · rw [makeAckCmd, if_pos (by omega)]
      rfl
    · rw [makeAckCmd, if_pos (by omega)]
      rfl
    · rw [List.length_take]
      omega

/-- C7 witness: a 2-character result passes through unchanged; a
300-character result raises when truncation is off and is cut to exactly
256 characters when it is on. -/
theorem makeAckCmd_result_spec_witness :
    (makeAckCmd 1 .complete 0 ['o', 'k'] false =
      .ok { identity := "", private_seqNum := 1, ack := .complete,
            error := 0, result := ['o', 'k'] }) ∧
    (makeAckCmd 2 .failed 0 (List.replicate 300 'x') false = .error ()) ∧
    (makeAckCmd 2 .failed 0 (List.replicate 300 'x') true =
      .ok { identity := "", private_seqNum := 2, ack := .failed, error := 0,
            result := (List.replicate 300 'x').take MAX_RESULT_LEN }) ∧
    ((List.replicate 300 'x').take MAX_RESULT_LEN).length = MAX_RESULT_LEN :=
  ⟨(makeAckCmd_result_spec 1 .complete 0 ['o', 'k']).1 (by decide) false,
   ((makeAckCmd_result_spec 2 .failed 0 (List.replicate 300 'x')).2
      (by rw [List.length_replicate]; decide)).1,
   ((makeAckCmd_result_spec 2 .failed 0 (List.replicate 300 'x')).2
      (by rw [List.length_replicate]; decide)).2.1,
   ((makeAckCmd_result_spec 2 .failed 0 (List.replicate 300 'x')).2
      (by rw [List.length_replicate]; decide)).2.2⟩

/-- C4 witness: `start` from `Standby`, with the post-hook returning
normally and with it raising. -/
theorem valid_transition_hook_protocol_witness :
    State.standby ∈ codeAllowedSources .start ∧
    runCscCmd .start true true .standby =
      { outcome := .complete, state := .disabled,
        trace := [.beginHook .start, .setState .disabled, .endHook .start,
                  .reportSummaryState .disabled] } ∧
    runCscCmd .start true false .standby =
      { outcome := .hookError, state := .standby,
        trace := [.beginHook .start, .setState .disabled, .endHook .start,
                  .setState .standby] } :=
  ⟨by decide, (valid_transition_hook_protocol .start .standby (by decide)).1,
    (valid_transition_hook_protocol .start .standby (by decide)).2⟩

/-- `index_generator()` at its defaults (`imin = 1`,
`imax = MAX_SAL_INDEX`, `i0 = imin`) passes its argument checks and is the
draw sequence `salIndexDraw`. -/
theorem index_generator_default :
    index_generator 1 MAX_SAL_INDEX 1 = .ok salIndexDraw := by
  rw [index_generator, if_neg (by decide), if_neg (by decide)]
  rfl

/-- Closed form of the default draw sequence: the `(k+1)`-th draw is
`k % MAX_SAL_INDEX + 1`. -/
theorem salIndexDraw_succ_closed :
    ∀ k : Nat, salIndexDraw (k + 1) = k % MAX_SAL_INDEX + 1 := by
  intro k
  induction k with
  | zero => decide
  | succ k ih =>
    have hstep : salIndexDraw (k + 2) =
        indexStep 1 MAX_SAL_INDEX (salIndexDraw (k + 1)) := rfl
    have hM : MAX_SAL_INDEX = 2147483647 := by decide
    rw [hstep, ih]
    unfold indexStep
    rw [hM] at *
    split <;> omega

/-- C8 (counterexample): the sequence-number source wraps: the
2147483647-th draw is `MAX_SAL_INDEX` and the draw after it is 1, so that
draw is NOT strictly greater than its predecessor. -/
theorem index_generator_wraps :
    salIndexDraw 2147483647 = MAX_SAL_INDEX ∧
    salIndexDraw 2147483648 = 1 ∧
    ¬ salIndexDraw 2147483647 < salIndexDraw 2147483648 := by
  have h1 := salIndexDraw_succ_closed 2147483646
  have h2 := salIndexDraw_succ_closed 2147483647
  have hM : MAX_SAL_INDEX = 2147483647 := by decide
  rw [hM] at h1 h2 ⊢
  norm_num at h1 h2
  refine ⟨by omega, by omega, by omega⟩

/-- C8 (amended): each draw from the sequence-number source is strictly
greater than the previous one — namely its successor — as long as the
previous draw has not reached `MAX_SAL_INDEX`; at `MAX_SAL_INDEX` the next
draw wraps around to 1. -/
theorem index_strictly_increasing_between_wraps :
    ∀ k : Nat, 1 ≤ k →
      (salIndexDraw k < MAX_SAL_INDEX →
        salIndexDraw (k + 1) = salIndexDraw k + 1) ∧
      (salIndexDraw k = MAX_SAL_INDEX → salIndexDraw (k + 1) = 1) := by
  intro k hk
  obtain ⟨j, rfl⟩ : ∃ j, k = j + 1 := ⟨k - 1, by omega⟩
  have h1 := salIndexDraw_succ_closed j
  have h2 := salIndexDraw_succ_closed (j + 1)
  have hM : MAX_SAL_INDEX = 2147483647 := by decide
  rw [hM] at h1 h2 ⊢
  constructor <;> intro h <;> omega

/-- C8 amended-claim witness: the first draw is 1, below the wrap bound,
and the second draw is its successor, 2. -/
theorem index_strictly_increasing_between_wraps_witness :
    salIndexDraw 1 < MAX_SAL_INDEX ∧ salIndexDraw 2 = salIndexDraw 1 + 1 :=
  ⟨by decide,
   (index_strictly_increasing_between_wraps 1 (by decide)).1 (by decide)⟩

/-- A guard of the shape used at the end of the replay loop: delivering a
list only when it is nonempty delivers the list itself in either case. -/
theorem deliver_if_nonempty {α : Type} (l : List α) :
    (if !l.isEmpty then l else []) = l := by
  cases l <;> simp

/-- C9: during historical replay, an open non-volatile reader with
`max_history > 0` whose valid historical backlog is `L` gets exactly the
last `min (L.length) max_history` samples of `L` enqueued — the suffix of
`L` of that length, in original order — provided the DDS reader's backlog
fits in the `take_cond` bound `queueLen`; volatile or closed readers, and
readers with `max_history = 0`, get nothing. -/
theorem historical_replay_last_max_history :
    ∀ (queueLen : Nat) (r : Reader),
      r.backlog.length ≤ queueLen →
      (r.isopen = true → r.volatile = false → 0 < r.max_history →
        historicalSamplesQueued queueLen r =
          (r.backlog.filter fun sd => sd.valid).drop
            ((r.backlog.filter fun sd => sd.valid).length - r.max_history) ∧
        (historicalSamplesQueued queueLen r).length =
          min (r.backlog.filter fun sd => sd.valid).length r.max_history ∧
        historicalSamplesQueued queueLen r <:+
          (r.backlog.filter fun sd => sd.valid)) ∧
      ((r.volatile = true ∨ r.isopen = false ∨ r.max_history = 0) →
        historicalSamplesQueued queueLen r = []) := by
  intro queueLen r hq
  constructor
  · intro hopen hvol hmax
    have hkey : historicalSamplesQueued queueLen r =
        (r.backlog.filter fun sd => sd.valid).drop
          ((r.backlog.filter fun sd => sd.valid).length - r.max_history) := by
      unfold historicalSamplesQueued Reader.triggered pySliceLast
      rw [hvol, hopen, List.take_of_length_le hq]
      cases hb : r.backlog with
      | nil => simp
      | cons a l =>
        have hmax0 : ¬ r.max_history = 0 := by omega
        simp [hmax, hmax0, deliver_if_nonempty]
        intro h1 h2
        have hfil : List.filter (fun sd => sd.valid) (a :: l) = [] := by
          simp [h1, h2]
          exact h2
        rw [hfil]
        simp
    refine ⟨hkey, ?_, ?_⟩
    · rw [hkey, List.length_drop]
      omega
    · rw [hkey]
      exact List.drop_suffix _ _
  · intro h
    unfold historicalSamplesQueued
    rcases h with h | h | h <;> simp [h]

/-- C9 witness: a backlog of four samples, one invalid, for an open
non-volatile reader with `max_history = 2` and `queueLen = 10`: the last
two valid samples are enqueued in order. -/
theorem historical_replay_last_max_history_witness :
    historicalSamplesQueued 10 replayWitnessReader =
      (replayWitnessReader.backlog.filter fun sd => sd.valid).drop
        ((replayWitnessReader.backlog.filter fun sd => sd.valid).length -
          replayWitnessReader.max_history) ∧
    (historicalSamplesQueued 10 replayWitnessReader).length =
      min (replayWitnessReader.backlog.filter fun sd => sd.valid).length
        replayWitnessReader.max_history ∧
    historicalSamplesQueued 10 replayWitnessReader <:+
      (replayWitnessReader.backlog.filter fun sd => sd.valid) :=
  (historical_replay_last_max_history 10 replayWitnessReader
      (by decide)).1 rfl rfl (by decide)

/-- If every element of `l` satisfies `p` and `a` does not, the greedy
`takeWhile`/`dropWhile` span of `l ++ a :: t` splits exactly at `a`. -/
theorem takeWhile_append_stop {α : Type} (p : α → Bool) (l t : List α)
    (a : α) (hl : ∀ x ∈ l, p x = true) (ha : p a = false) :
    (l ++ a :: t).takeWhile p = l ∧ (l ++ a :: t).dropWhile p = a :: t := by
  induction l with
  | nil => simp [List.takeWhile_cons, List.dropWhile_cons, ha]
  | cons x xs ih =>
    have hx : p x = true := hl x (by simp)
    obtain ⟨h1, h2⟩ := ih (fun y hy => hl y (by simp [hy]))
    simp [List.takeWhile_cons, List.dropWhile_cons, hx, h1, h2]

/-- C10: `name_to_name_index` returns `(name, 0)` for a bare name, and
`(name, i)` for `name:i` with `i` decimal digits; it rejects (ValueError,
embedded as `none`) leading whitespace, a trailing space, a colon with no
digits, and a non-integer index; and it accepts a single trailing newline
after the index, because the regex's `$` anchor also matches just before a
final newline. -/
theorem name_to_name_index_spec :
    (∀ (c : Char) (rest : List Char),
      isNameFirstChar c = true →
      (∀ x ∈ rest, isNameChar x = true) →
      name_to_name_index (String.mk (c :: rest)) =
        some (String.mk (c :: rest), 0)) ∧
    (∀ (c : Char) (rest ds : List Char),
      isNameFirstChar c = true →
      (∀ x ∈ rest, isNameChar x = true) →
      ds ≠ [] →
      (∀ d ∈ ds, Char.isDigit d = true) →
      name_to_name_index (String.mk (c :: rest ++ ':' :: ds)) =
        some (String.mk (c :: rest), digitsToNat ds)) ∧
    name_to_name_index " Script:15" = none ∧
    name_to_name_index "Script:15 " = none ∧
    name_to_name_index "Script:" = none ∧
    name_to_name_index "Script:zero" = none ∧
    name_to_name_index "Script:15\n" = some ("Script", 15) := by
  refine ⟨?_, ?_, by decide, by decide, by decide, by decide, by decide⟩
  · intro c rest hc hrest
    have h1 : rest.takeWhile isNameChar = rest :=
      List.takeWhile_eq_self_iff.mpr hrest
    have h2 : rest.dropWhile isNameChar = [] :=
      List.dropWhile_eq_nil_iff.mpr hrest
    simp [name_to_name_index, parseNameIndex, hc, h1, h2]
  · intro c rest ds hc hrest hne hds
    obtain ⟨h1, h2⟩ := takeWhile_append_stop isNameChar rest (':' :: ds).tail
      ':' hrest (by decide)
    have h3 : ds.takeWhile Char.isDigit = ds :=
      List.takeWhile_eq_self_iff.mpr hds
    have h4 : ds.dropWhile Char.isDigit = [] :=
      List.dropWhile_eq_nil_iff.mpr hds
    simp only [List.tail_cons] at h1 h2
    simp [name_to_name_index, parseNameIndex, hc, h1, h2, h3, h4, hne]

/-- C10 witness: a bare name, and a name with a two-digit index. -/
theorem name_to_name_index_spec_witness :
    name_to_name_index "Script" = some ("Script", 0) ∧
    name_to_name_index "abc:42" = some ("abc", 42) := by
  constructor
  · exact name_to_name_index_spec.1 'S' ['c', 'r', 'i', 'p', 't']
      (by decide) (by decide)
  · exact name_to_name_index_spec.2.1 'a' ['b', 'c'] ['4', '2']
      (by decide) (by decide) (by decide) (by decide)

end Salobj
